import Mathlib

/-!
Verification development for the city-scrapers-san-diego repository.

The definitions below are a shallow embedding of the scraping core:
the National City mixin (`city_scrapers/mixins/sandie_nationalcity.py`),
the Chula Vista mixin (`city_scrapers/mixins/sandie_citychula.py`) and the
metaclass configuration checks.  Python strings are modelled as Lean
`String`, naive `datetime` values as a record of numeric fields, and the
specific regular expressions used by the source as hand-compiled matchers
with Python `re.search` semantics (leftmost match, greedy quantifiers with
backtracking).
-/

namespace Scrapers

/-! ## Python string primitives -/

/-- Whitespace characters recognised by Python's `str.strip`, `str.split`
and the regex class `\s` (ASCII range, which covers every string handled
by the scrapers). -/
def isPySpace (c : Char) : Bool :=
  c = ' ' || c = '\t' || c = '\n' || c = '\r' || c = Char.ofNat 11 || c = Char.ofNat 12

/-- Python `str.strip()` on a character list. -/
def pyStripL (cs : List Char) : List Char :=
  ((cs.dropWhile isPySpace).reverse.dropWhile isPySpace).reverse

/-- Python `str.strip()`. -/
def pyStrip (s : String) : String :=
  String.mk (pyStripL s.data)

/-- Python `str.lower()` (ASCII case mapping, which is what every
classification keyword and filter string in the source uses). -/
def pyLower (s : String) : String :=
  String.mk (s.data.map Char.toLower)

/-- Membership of `needle` as a contiguous prefix of `hay`. -/
def startsWithL : List Char → List Char → Bool
  | [], _ => true
  | _ :: _, [] => false
  | a :: as, b :: bs => a = b && startsWithL as bs

/-- Python's substring test `needle in hay`. -/
def isSubstrL (needle : List Char) : List Char → Bool
  | [] => needle.isEmpty
  | c :: cs => startsWithL needle (c :: cs) || isSubstrL needle cs

/-- Python `s.startswith(pre)`. -/
def pyStartsWith (pre s : String) : Bool :=
  startsWithL pre.data s.data

/-- Python's substring test on `String`. -/
def isSubstrS (needle hay : String) : Bool :=
  isSubstrL needle.data hay.data

/-- Helper for `pySplitWs`: accumulates the current word (reversed). -/
def splitWsAux : List Char → List Char → List (List Char)
  | [], cur => if cur.isEmpty then [] else [cur.reverse]
  | c :: cs, cur =>
    if isPySpace c then
      if cur.isEmpty then splitWsAux cs [] else cur.reverse :: splitWsAux cs []
    else splitWsAux cs (c :: cur)

/-- Python `str.split()` with no argument: split on whitespace runs,
dropping empty fields. -/
def pySplitWs (s : String) : List String :=
  (splitWsAux s.data []).map String.mk

/-- The composite `re.sub(r"\s+", " ", text).strip()` used by
`_normalize_title`; it equals joining the whitespace-split words with
single spaces. -/
def collapseWs (s : String) : String :=
  String.intercalate " " (pySplitWs s)

/-- Value of a decimal digit string (the regex groups below only produce
digit characters). -/
def pyIntL (cs : List Char) : Nat :=
  cs.foldl (fun a c => a * 10 + (c.toNat - 48)) 0

/-- Python `str.isdigit()`: nonempty and all digits. -/
def pyIsDigitStr (g : List Char) : Bool :=
  !g.isEmpty && g.all Char.isDigit

/-! ## Naive datetime model -/

/-- A Python naive `datetime` restricted to the fields the scrapers set
(seconds are parsed where the source validates them but never stored on
an emitted record's comparison path). -/
structure PyDateTime where
  year : Nat
  month : Nat
  day : Nat
  hour : Nat := 0
  minute : Nat := 0
deriving DecidableEq

/-- Gregorian leap year, as used by `datetime`. -/
def isLeapYear (y : Nat) : Bool :=
  y % 4 = 0 && (y % 100 ≠ 0 || y % 400 = 0)

/-- Days in a month, as enforced by the `datetime` constructor. -/
def daysInMonth (y m : Nat) : Nat :=
  if m = 2 then (if isLeapYear y then 29 else 28)
  else if m = 4 || m = 6 || m = 9 || m = 11 then 30
  else 31

/-- The `datetime(year, month, day)` constructor succeeds exactly under
these bounds (`ValueError` otherwise, which the source catches). -/
def dateValidB (y m d : Nat) : Bool :=
  1 ≤ y && y ≤ 9999 && 1 ≤ m && m ≤ 12 && 1 ≤ d && d ≤ daysInMonth y m

/-! ## Hand-compiled regular expressions

Each Python pattern used by the mixins is compiled to a matcher
`List Char → Option groups` that attempts the pattern at the head of the
input (including the greedy-with-backtracking behaviour of `\d{1,2}` and
of alternations), and `regexSearch` supplies `re.search`'s leftmost-match
semantics. -/

/-- `re.search`: try the pattern at each position, leftmost success wins. -/
def regexSearch (m : List Char → Option α) : List Char → Option α
  | [] => m []
  | c :: cs =>
    match m (c :: cs) with
    | some r => some r
    | none => regexSearch m cs

/-- Match exactly `n` digit characters, returning the group and the rest. -/
def exactDigits : Nat → List Char → Option (List Char × List Char)
  | 0, cs => some ([], cs)
  | _ + 1, [] => none
  | n + 1, c :: cs =>
    if c.isDigit then
      match exactDigits n cs with
      | some (g, r) => some (c :: g, r)
      | none => none
    else none

/-- Case-insensitive literal match (for the month-name alternations,
which are compiled with `re.IGNORECASE`); returns the matched input text. -/
def matchLitCI : List Char → List Char → Option (List Char × List Char)
  | [], cs => some ([], cs)
  | _ :: _, [] => none
  | p :: ps, c :: cs =>
    if c.toLower = p.toLower then
      match matchLitCI ps cs with
      | some (g, r) => some (c :: g, r)
      | none => none
    else none

/-- Regex `\s+` followed by nothing that can backtrack into it (always
followed by a digit in the date patterns): consume one mandatory
whitespace character and then the maximal run. -/
def wsPlus : List Char → Option (List Char)
  | [] => none
  | c :: cs => if isPySpace c then some (cs.dropWhile isPySpace) else none

/-- Regex `\s*` (always followed by a letter in the time patterns). -/
def wsStar (cs : List Char) : List Char :=
  cs.dropWhile isPySpace

/-! ### Date pattern 1: `(\d{1,2})/(\d{1,2})/(\d{4})` -/

/-- After the first group: `/`, second day group (2 then 1 digits), `/`,
four-digit year. -/
def slashYear : List Char → Option (List Char)
  | '/' :: r => (exactDigits 4 r).map Prod.fst
  | _ => none

/-- Second group of pattern 1 with one digit. -/
def d1G2One (r : List Char) : Option (List Char × List Char) :=
  match exactDigits 1 r with
  | some (g2, r2) => (slashYear r2).map (fun y => (g2, y))
  | none => none

/-- `/` then `(\d{1,2})` (greedy) then `/(\d{4})`. -/
def d1AfterG1 : List Char → Option (List Char × List Char)
  | '/' :: r =>
    (match exactDigits 2 r with
     | some (g2, r2) =>
       match slashYear r2 with
       | some y => some (g2, y)
       | none => d1G2One r
     | none => d1G2One r)
  | _ => none

/-- First group of pattern 1 with one digit. -/
def d1G1One (cs : List Char) : Option (List Char × List Char × List Char) :=
  match exactDigits 1 cs with
  | some (g1, r) => (d1AfterG1 r).map (fun p => (g1, p.1, p.2))
  | none => none

/-- Pattern 1 anchored at the current position. -/
def matchD1At (cs : List Char) : Option (List Char × List Char × List Char) :=
  match exactDigits 2 cs with
  | some (g1, r) =>
    (match d1AfterG1 r with
     | some (g2, y) => some (g1, g2, y)
     | none => d1G1One cs)
  | none => d1G1One cs

/-! ### Date pattern 2: `(\d{4})-(\d{1,2})-(\d{1,2})` -/

/-- `-` then the day group (2 then 1 digits, greedy). -/
def dashDay : List Char → Option (List Char)
  | '-' :: r =>
    (match exactDigits 2 r with
     | some (g3, _) => some g3
     | none => (exactDigits 1 r).map Prod.fst)
  | _ => none

/-- Month group of pattern 2 with one digit. -/
def d2G2One (y : List Char) (r2 : List Char) :
    Option (List Char × List Char × List Char) :=
  match exactDigits 1 r2 with
  | some (g2, r3) => (dashDay r3).map (fun g3 => (y, g2, g3))
  | none => none

/-- Pattern 2 anchored at the current position. -/
def matchD2At (cs : List Char) : Option (List Char × List Char × List Char) :=
  match exactDigits 4 cs with
  | some (y, r) =>
    match r with
    | '-' :: r2 =>
      (match exactDigits 2 r2 with
       | some (g2, r3) =>
         match dashDay r3 with
         | some g3 => some (y, g2, g3)
         | none => d2G2One y r2
       | none => d2G2One y r2)
    | _ => none
  | none => none

/-! ### Date patterns 3 and 4: month name, day, year -/

/-- Day group (2 then 1 digits), optional comma, `\s+`, four-digit year.
When a comma is present, retrying without consuming it would place `\s+`
on the comma and fail, so the optional comma needs no backtracking. -/
def commaWsYear (cs : List Char) : Option (List Char) :=
  let r := match cs with
    | ',' :: t => t
    | _ => cs
  match wsPlus r with
  | some r2 => (exactDigits 4 r2).map Prod.fst
  | none => none

/-- Day-with-year tail, day group greedy. -/
def dayYearTail (cs : List Char) : Option (List Char × List Char) :=
  match exactDigits 2 cs with
  | some (g2, r) =>
    (match commaWsYear r with
     | some y => some (g2, y)
     | none =>
       match exactDigits 1 cs with
       | some (g2b, rb) => (commaWsYear rb).map (fun y => (g2b, y))
       | none => none)
  | none =>
    match exactDigits 1 cs with
    | some (g2, r) => (commaWsYear r).map (fun y => (g2, y))
    | none => none

/-- `\s+` then the day-year tail (pattern 3 after the month name). -/
def wsDayYear (cs : List Char) : Option (List Char × List Char) :=
  (wsPlus cs).bind dayYearTail

/-- Optional `\.` then `\s+` then the day-year tail (pattern 4 after the
abbreviated month name).  A consumed dot cannot be profitably
backtracked: without it `\s+` would sit on the dot and fail. -/
def dotWsDayYear (cs : List Char) : Option (List Char × List Char) :=
  let r := match cs with
    | '.' :: t => t
    | _ => cs
  wsDayYear r

/-- Month-name alternation: try each name in the pattern's order; if the
tail fails after a name matches, fall through to the next alternative,
as regex alternation backtracking does. -/
def tryMonths (tail : List Char → Option (List Char × List Char)) :
    List String → List Char → Option (List Char × List Char × List Char)
  | [], _ => none
  | mn :: rest, cs =>
    match matchLitCI mn.data cs with
    | some (g1, r1) =>
      (match tail r1 with
       | some (g2, g3) => some (g1, g2, g3)
       | none => tryMonths tail rest cs)
    | none => tryMonths tail rest cs

/-- Full month names in the order of `_DATE_PATTERNS[2]`. -/
def fullMonthNames : List String :=
  ["January", "February", "March", "April", "May", "June", "July",
   "August", "September", "October", "November", "December"]

/-- Abbreviated month names in the order of `_DATE_PATTERNS[3]`. -/
def abbrevMonthNames : List String :=
  ["Jan", "Feb", "Mar", "Apr", "May", "Jun", "Jul", "Aug", "Sep", "Oct",
   "Nov", "Dec"]

/-- Pattern 3 anchored at the current position. -/
def matchD3At (cs : List Char) : Option (List Char × List Char × List Char) :=
  tryMonths wsDayYear fullMonthNames cs

/-- Pattern 4 anchored at the current position. -/
def matchD4At (cs : List Char) : Option (List Char × List Char × List Char) :=
  tryMonths dotWsDayYear abbrevMonthNames cs

/-- Searches for the four date patterns of `_DATE_PATTERNS`. -/
def ncSearchD1 (cs : List Char) : Option (List Char × List Char × List Char) :=
  regexSearch matchD1At cs

def ncSearchD2 (cs : List Char) : Option (List Char × List Char × List Char) :=
  regexSearch matchD2At cs

def ncSearchD3 (cs : List Char) : Option (List Char × List Char × List Char) :=
  regexSearch matchD3At cs

def ncSearchD4 (cs : List Char) : Option (List Char × List Char × List Char) :=
  regexSearch matchD4At cs

/-! ### Time patterns of `_extract_datetime` -/

/-- AM or PM marker. -/
inductive Meridiem where
  | am
  | pm
deriving DecidableEq

/-- The alternation `(AM|PM|am|pm)` compiled with `re.IGNORECASE`:
a letter in `{A, a, P, p}` followed by a letter in `{M, m}`. -/
def matchAmPm : List Char → Option Meridiem
  | c1 :: c2 :: _ =>
    if c2.toLower = 'm' then
      if c1.toLower = 'a' then some Meridiem.am
      else if c1.toLower = 'p' then some Meridiem.pm
      else none
    else none
  | _ => none

/-- After the hour group of `(\d{1,2}):(\d{2})\s*(AM|PM|am|pm)`. -/
def afterHourT1 : List Char → Option (List Char × Meridiem)
  | ':' :: r =>
    (match exactDigits 2 r with
     | some (m, r2) => (matchAmPm (wsStar r2)).map (fun p => (m, p))
     | none => none)
  | _ => none

/-- Hour group of time pattern 1 with one digit. -/
def t1OneDigit (cs : List Char) : Option (List Char × List Char × Meridiem) :=
  match exactDigits 1 cs with
  | some (h, r) => (afterHourT1 r).map (fun p => (h, p.1, p.2))
  | none => none

/-- Time pattern 1 `(\d{1,2}):(\d{2})\s*(AM|PM|am|pm)` anchored here. -/
def matchT1At (cs : List Char) : Option (List Char × List Char × Meridiem) :=
  match exactDigits 2 cs with
  | some (h, r) =>
    (match afterHourT1 r with
     | some (m, p) => some (h, m, p)
     | none => t1OneDigit cs)
  | none => t1OneDigit cs

/-- After the hour group of `(\d{1,2})\s*(AM|PM|am|pm)`. -/
def afterHourT2 (r : List Char) : Option Meridiem :=
  matchAmPm (wsStar r)

/-- Hour group of time pattern 2 with one digit. -/
def t2OneDigit (cs : List Char) : Option (List Char × Meridiem) :=
  match exactDigits 1 cs with
  | some (h, r) => (afterHourT2 r).map (fun p => (h, p))
  | none => none

/-- Time pattern 2 `(\d{1,2})\s*(AM|PM|am|pm)` anchored here. -/
def matchT2At (cs : List Char) : Option (List Char × Meridiem) :=
  match exactDigits 2 cs with
  | some (h, r) =>
    (match afterHourT2 r with
     | some p => some (h, p)
     | none => t2OneDigit cs)
  | none => t2OneDigit cs

def ncSearchTimeHM (cs : List Char) : Option (List Char × List Char × Meridiem) :=
  regexSearch matchT1At cs

def ncSearchTimeH (cs : List Char) : Option (List Char × Meridiem) :=
  regexSearch matchT2At cs

/-! ## `_parse_date` and `_extract_datetime` of the National City mixin -/

/-- `_MONTH_MAP` from the source. -/
def monthAssoc : List (String × Nat) :=
  [("january", 1), ("jan", 1), ("february", 2), ("feb", 2), ("march", 3),
   ("mar", 3), ("april", 4), ("apr", 4), ("may", 5), ("june", 6),
   ("jun", 6), ("july", 7), ("jul", 7), ("august", 8), ("aug", 8),
   ("september", 9), ("sep", 9), ("october", 10), ("oct", 10),
   ("november", 11), ("nov", 11), ("december", 12), ("dec", 12)]

def monthLookup (s : String) : Option Nat :=
  List.lookup s monthAssoc

/-- `datetime(year, month, day)` with the constructor's validity check. -/
def mkValidDate (y m d : Nat) : Option PyDateTime :=
  if dateValidB y m d then some { year := y, month := m, day := d } else none

/-- Interpretation of a matched pattern's three groups inside
`_parse_date`: numeric groups are disambiguated by the width of the
first group (a 4-digit first group is the year), otherwise the first
group is a month name looked up in `_MONTH_MAP`; an invalid date
(`ValueError`) or a failed month lookup falls through to the next
pattern. -/
def interpG (g : List Char × List Char × List Char) : Option PyDateTime :=
  let g1 := g.1
  let g2 := g.2.1
  let g3 := g.2.2
  if pyIsDigitStr g1 && pyIsDigitStr g2 then
    if g1.length = 4 then mkValidDate (pyIntL g1) (pyIntL g2) (pyIntL g3)
    else mkValidDate (pyIntL g3) (pyIntL g1) (pyIntL g2)
  else
    match monthLookup (String.mk (g1.map Char.toLower)) with
    | some m => mkValidDate (pyIntL g3) m (pyIntL g2)
    | none => none

/-- `_parse_date`: try the four patterns in order; a pattern that does
not match, or whose groups do not form a valid date, falls through to
the next one; `None` when all fail. -/
def ncParseDateL (cs : List Char) : Option PyDateTime :=
  match (ncSearchD1 cs).bind interpG with
  | some d => some d
  | none =>
    match (ncSearchD2 cs).bind interpG with
    | some d => some d
    | none =>
      match (ncSearchD3 cs).bind interpG with
      | some d => some d
      | none => (ncSearchD4 cs).bind interpG

/-- `_parse_date` on a `String`. -/
def ncParseDate (s : String) : Option PyDateTime :=
  ncParseDateL s.data

/-- The 12-hour to 24-hour conversion of `_extract_datetime`:
`PM` adds 12 unless the hour is 12, `12 AM` becomes 0. -/
def convert12 (p : Meridiem) (h : Nat) : Nat :=
  if p = Meridiem.pm ∧ h ≠ 12 then h + 12
  else if p = Meridiem.am ∧ h = 12 then 0
  else h

/-- The time-extraction step of `_extract_datetime`: try
`H:MM AM/PM` then `H AM/PM`, convert to 24-hour; the bare-hour pattern
gets minute 0. -/
def ncExtractTime (s : String) : Option (Nat × Nat) :=
  match ncSearchTimeHM s.data with
  | some (h, m, p) => some (convert12 p (pyIntL h), pyIntL m)
  | none =>
    match ncSearchTimeH s.data with
    | some (h, p) => some (convert12 p (pyIntL h), 0)
    | none => none

/-- `_extract_datetime`: requires a parseable date; a matched time is
installed via `datetime.replace`, whose `ValueError` on an out-of-range
hour or minute makes the whole extraction return `None`; with no time
match the date itself (midnight) is returned. -/
def ncExtractDatetime (s : String) : Option PyDateTime :=
  match ncParseDate s with
  | none => none
  | some d =>
    match ncExtractTime s with
    | some (h, m) =>
      if h ≤ 23 ∧ m ≤ 59 then some { d with hour := h, minute := m } else none
    | none => some d

/-- A table cell as the list of its text nodes; `_parse_start` joins
them with spaces and strips. -/
def ncCellText (c : List String) : String :=
  pyStrip (String.intercalate " " c)

/-- First pass of `_parse_start`: first cell whose extracted datetime
has a non-midnight time-of-day. -/
def ncPassOne : List (List String) → Option PyDateTime
  | [] => none
  | c :: cs =>
    match ncExtractDatetime (ncCellText c) with
    | some dt => if dt.hour ≠ 0 ∨ dt.minute ≠ 0 then some dt else ncPassOne cs
    | none => ncPassOne cs

/-- Second pass of `_parse_start`: first cell with any extracted
datetime. -/
def ncPassTwo : List (List String) → Option PyDateTime
  | [] => none
  | c :: cs =>
    match ncExtractDatetime (ncCellText c) with
    | some dt => some dt
    | none => ncPassTwo cs

/-- `_parse_start`: non-midnight pass first, then the fallback pass. -/
def ncParseStart (cells : List (List String)) : Option PyDateTime :=
  match ncPassOne cells with
  | some dt => some dt
  | none => ncPassTwo cells

/-! ## Classification -/

/-- The classification constants of `city_scrapers_core.constants`. -/
inductive Classification where
  | commission
  | advisoryCommittee
  | committee
  | board
  | cityCouncil
  | notClassified
deriving DecidableEq

/-- `_parse_classification_from_title` of the National City mixin:
keyword cascade on the lower-cased title. -/
def ncClassifyTitle (title : String) : Classification :=
  let l := pyLower title
  if isSubstrS "commission" l then Classification.commission
  else if isSubstrS "advisory" l then Classification.advisoryCommittee
  else if isSubstrS "committee" l then Classification.committee
  else if isSubstrS "board" l then Classification.board
  else if isSubstrS "council" l then Classification.cityCouncil
  else Classification.notClassified

/-! ## National City row model and parse pipeline -/

/-- The `event_type` class attribute: a string or a list of strings. -/
inductive NCEventType where
  | str (s : String)
  | list (l : List String)
deriving DecidableEq

/-- Configuration of a National City spider class (the attributes the
mixin reads during `parse`; `start_year` defaults to 2022 as on line 56
of the source). -/
structure NCConfig where
  name : String
  agency : String
  eventType : NCEventType
  startYear : Nat := 2022
deriving DecidableEq

/-- An `<a>` element of a row: its `href` attribute (absent is `none`)
and its text nodes in order. -/
structure NCAnchor where
  href : Option String
  texts : List String
deriving DecidableEq

/-- A `<tr>` of the listing table: its `<td>` cells (each a list of text
nodes) and its anchors.  Anchor text also occurs among the cell text
nodes in the real document; the claims checked here never rely on that
coupling. -/
structure NCRow where
  cells : List (List String)
  anchors : List NCAnchor
deriving DecidableEq

/-- `" ".join(row.css("::text").getall())` over the row's text nodes. -/
def ncRowText (r : NCRow) : String :=
  String.intercalate " " r.cells.flatten

/-- A link dict built by `_parse_links`, with the `original_title` kept
for event-type filtering. -/
structure NCLink where
  href : String
  title : String
  originalTitle : String
deriving DecidableEq

/-- A link of an emitted record (`href`/`title` only). -/
structure MLink where
  href : String
  title : String
deriving DecidableEq

/-- Modelled from the Python standard library: `html.unescape` decodes
HTML character references.  No string handled in this development
contains a reference, so it is the identity here. -/
def htmlUnescape (s : String) : String := s

/-- The smart-punctuation replacements of `_normalize_title` (each is a
single-character substitution). -/
def smartChar (c : Char) : Char :=
  if c = Char.ofNat 0x2013 then '-'
  else if c = Char.ofNat 0x2014 then '-'
  else if c = Char.ofNat 0x2019 then Char.ofNat 39
  else if c = Char.ofNat 0x2018 then Char.ofNat 39
  else if c = Char.ofNat 0x201c then '"'
  else if c = Char.ofNat 0x201d then '"'
  else c

/-- `_normalize_title`: empty (or missing) text maps to the empty
string; otherwise decode entities, replace smart punctuation, collapse
whitespace and strip. -/
def ncNormalizeTitle (text : String) : String :=
  if text = "" then ""
  else collapseWs (String.mk ((htmlUnescape text).data.map smartChar))

/-- The first line of a string (`split("\n")[0]`). -/
def firstLineOf (s : String) : String :=
  String.mk (s.data.takeWhile (fun c => c ≠ '\n'))

/-- `_parse_title`: first text node of the first cell, normalized; if
empty, the normalized full row text's first line; the agency name as a
last resort. -/
def ncParseTitle (cfg : NCConfig) (r : NCRow) : String :=
  match r.cells with
  | [] => cfg.agency
  | c0 :: _ =>
    let t := ncNormalizeTitle (c0.head?.getD "")
    if t ≠ "" then t
    else
      let allT := ncNormalizeTitle (ncRowText r)
      if allT ≠ "" then
        let l := pyStrip (firstLineOf allT)
        if l ≠ "" then l else cfg.agency
      else cfg.agency

/-- Base URL used by `_parse_links` for relative hrefs. -/
def ncBase : String := "https://www.nationalcityca.gov"

/-- Href absolutization of `_parse_links`. -/
def ncAbsolutize (h : String) : String :=
  if pyStartsWith "/" h then ncBase ++ h
  else if !(pyStartsWith "http" h) then ncBase ++ "/" ++ h
  else h

/-- One iteration of the `_parse_links` loop: `none` when the anchor is
skipped (empty href or calendar detail link). -/
def ncLinkOfAnchor (a : NCAnchor) : Option NCLink :=
  let h0 := pyStrip (a.href.getD "")
  if h0 = "" then none
  else
    let href := ncAbsolutize h0
    let hl := pyLower href
    if isSubstrS "/calendar/event/" hl || isSubstrS "/components/calendar/" hl then
      none
    else
      let title :=
        match a.texts.head? with
        | none => "Document"
        | some s => if s = "" then "Document" else ncNormalizeTitle (pyStrip s)
      let tl := pyLower title
      let linkTitle :=
        if isSubstrS "agenda" hl || isSubstrS "agenda" tl then "Agenda"
        else if isSubstrS "minutes" hl || isSubstrS "minutes" tl then "Minutes"
        else if isSubstrS "packet" hl || isSubstrS "packet" tl then "Packet"
        else title
      some { href := href, title := linkTitle, originalTitle := title }

/-- `_parse_links`: collect the row's document links in order, with no
deduplication. -/
def ncParseLinks (r : NCRow) : List NCLink :=
  r.anchors.filterMap ncLinkOfAnchor

/-- `_matches_event_type`: substring match for a string filter, any-of
substring match for a list filter, on the lower-cased row text. -/
def ncMatchesEventType (cfg : NCConfig) (text : String) : Bool :=
  let tl := pyLower text
  match cfg.eventType with
  | NCEventType.str s => isSubstrS (pyLower s) tl
  | NCEventType.list l => l.any (fun f => isSubstrS (pyLower f) tl)

/-- The conjunction indicators of `_detect_combined_meeting`. -/
def combinedIndicators : List String := [" and ", " & ", "/"]

/-- The configured event types found in a title (lower-cased substring
test, preserving configuration order). -/
def ncMatchedEventTypes (ets : List String) (title : String) : List String :=
  ets.filter (fun e => isSubstrS (pyLower e) (pyLower title))

/-- `_detect_combined_meeting`: only a list-valued `event_type` can
split; requires a conjunction indicator in the lower-cased title and at
least two matched event types. -/
def ncDetectCombined (cfg : NCConfig) (title : String) : Option (List String) :=
  match cfg.eventType with
  | NCEventType.str _ => none
  | NCEventType.list ets =>
    let tl := pyLower title
    if combinedIndicators.any (fun i => isSubstrS i tl) then
      let found := ncMatchedEventTypes ets title
      if found.length > 1 then some found else none
    else none

/-- `_filter_links_by_event_type`: keep links whose original
(pre-canonicalization) text contains one of the event type's
whitespace-separated keywords, stripping the `original_title` field. -/
def ncFilterLinksByEventType (links : List NCLink) (et : String) : List MLink :=
  let kws := pySplitWs (pyLower et)
  links.filterMap (fun l =>
    if kws.any (fun k => isSubstrS k (pyLower l.originalTitle)) then
      some { href := l.href, title := l.title }
    else none)

/-- An emitted National City record, restricted to the fields the
checked claims mention (`description`, `end`, `all_day`, `time_notes`,
`location`, `status` and `id` are computed by the same pipeline but play
no role in any claim; `status`/`id` come from the external
`city_scrapers_core` base class). -/
structure NCMeetingData where
  title : String
  classification : Classification
  start : Option PyDateTime
  links : List MLink
  source : String
deriving DecidableEq

/-- `_parse_start` applied to a row, as `parse` does. -/
def ncRowStart (r : NCRow) : Option PyDateTime :=
  ncParseStart r.cells

/-- The `start_year` cutoff of `parse` (lines 158-160): only applied
when a start datetime was extracted. -/
def ncYearSkip (cfg : NCConfig) (start : Option PyDateTime) : Bool :=
  match start with
  | some dt => decide (dt.year < cfg.startYear)
  | none => false

/-- The record set `parse` emits for one table row (lines 144-231):
rows without cells or not matching the event-type filter are skipped,
the `start_year` cutoff applies to extracted starts, a combined meeting
yields one record per matched event type with filtered links, otherwise
a single record with the cleaned links.  When a detail page exists the
same record list is emitted by `parse_detail` (only `location`, not
modelled here, differs), so this list is the row's emission in both
paths. -/
def ncRowMeetingData (cfg : NCConfig) (r : NCRow) (src : String) :
    List NCMeetingData :=
  if r.cells.isEmpty then []
  else if !(ncMatchesEventType cfg (ncRowText r)) then []
  else
    let links := ncParseLinks r
    let start := ncRowStart r
    if ncYearSkip cfg start then []
    else
      let title := ncParseTitle cfg r
      match ncDetectCombined cfg title with
      | some types =>
        types.map (fun e =>
          { title := e ++ " Meeting",
            classification := ncClassifyTitle (e ++ " Meeting"),
            start := start,
            links := ncFilterLinksByEventType links e,
            source := src })
      | none =>
        [{ title := title,
           classification := ncClassifyTitle title,
           start := start,
           links := links.map (fun l => { href := l.href, title := l.title }),
           source := src }]

/-! ## Chula Vista mixin -/

/-- One entry of the `MeetingDocumentLink` array of a calendar item. -/
structure ChulaDoc where
  Url : Option String := none
  Title : Option String := none
deriving DecidableEq

/-- A calendar item of the `GetCalendarMeetings` response (`none`
models an absent or null field). -/
structure ChulaItem where
  MeetingName : Option String := none
  MeetingType : Option String := none
  StartDate : Option String := none
  EndDate : Option String := none
  MeetingDocumentLink : List ChulaDoc := []
  HasVideo : Bool := false
  VideoUrl : Option String := none
deriving DecidableEq

/-- Configuration of a Chula Vista spider class.  The empty list models
the `None` default of `allowed_meeting_types` (both are falsy, which is
what `_create_meeting` tests). -/
structure ChulaConfig where
  name : String
  agency : String
  meetingViewId : Nat
  allowedMeetingTypes : List String := []
deriving DecidableEq

/-- An emitted Chula Vista record, restricted to the fields the checked
claims mention. -/
structure ChulaMeeting where
  title : String
  classification : Classification
  start : Option PyDateTime
  endTime : Option PyDateTime
  links : List MLink
deriving DecidableEq

def chulaBase : String := "https://pub-chulavista.escribemeetings.com/"

/-- Python `str.lstrip("/")`. -/
def lstripSlashes (s : String) : String :=
  String.mk (s.data.dropWhile (fun c => c = '/'))

/-- `_make_absolute_url`: reject missing, empty or placeholder (`<...`)
urls; pass absolute urls through; resolve the rest against the base. -/
def chulaMakeAbsoluteUrl (u : Option String) : Option String :=
  match u with
  | none => none
  | some s =>
    if s = "" then none
    else if pyStartsWith "<" s then none
    else if pyStartsWith "http" s then some s
    else some (chulaBase ++ lstripSlashes s)

/-- `_normalize_link_title`: `None`/empty stays `None`; strip; the
Spanish agenda title is canonicalized.  The result may still be the
empty string (a whitespace-only title), which the caller then skips. -/
def chulaNormalizeLinkTitle (t : Option String) : Option String :=
  match t with
  | none => none
  | some s =>
    if s = "" then none
    else
      let s2 := pyStrip s
      if pyLower s2 = "agenda en español" then some "Agenda (Spanish)" else some s2

/-- The document-link loop of `_parse_links`, with the mutable
`links`/`seen_urls` pair threaded as an accumulator: a document is
skipped when its url is unresolvable or already seen, or when its title
normalizes to nothing; otherwise the link is appended and its url
recorded. -/
def collectDocLinks : List ChulaDoc → List String → List MLink × List String
  | [], seen => ([], seen)
  | d :: ds, seen =>
    match chulaMakeAbsoluteUrl d.Url with
    | none => collectDocLinks ds seen
    | some url =>
      if seen.contains url then collectDocLinks ds seen
      else
        match chulaNormalizeLinkTitle d.Title with
        | none => collectDocLinks ds seen
        | some t =>
          if t = "" then collectDocLinks ds seen
          else
            let rest := collectDocLinks ds (seen ++ [url])
            ({ href := url, title := t } :: rest.1, rest.2)

/-- `_parse_links` of the Chula Vista mixin: deduplicated document
links, then a synthesized Video link when flagged, present and unseen. -/
def chulaParseLinks (item : ChulaItem) : List MLink :=
  let acc := collectDocLinks item.MeetingDocumentLink []
  if item.HasVideo && (item.VideoUrl.getD "") ≠ "" then
    match chulaMakeAbsoluteUrl item.VideoUrl with
    | some vu =>
      if !(acc.2.contains vu) then acc.1 ++ [{ href := vu, title := "Video" }]
      else acc.1
    | none => acc.1
  else acc.1

/-- `_parse_title`: `MeetingName`, else `MeetingType`, stripped and
entity-decoded. -/
def chulaParseTitle (item : ChulaItem) : String :=
  let base :=
    match item.MeetingName with
    | some s => if s ≠ "" then s else item.MeetingType.getD ""
    | none => item.MeetingType.getD ""
  htmlUnescape (pyStrip base)

/-- `_parse_classification` of the Chula Vista mixin: keyword cascade
commission, committee, board on the lower-cased `MeetingType` (no
advisory and no council keyword). -/
def chulaParseClassification (item : ChulaItem) : Classification :=
  let t := pyLower (item.MeetingType.getD "")
  if isSubstrS "commission" t then Classification.commission
  else if isSubstrS "committee" t then Classification.committee
  else if isSubstrS "board" t then Classification.board
  else Classification.notClassified

/-- A digit run and the rest of the input. -/
def takeDigitRun : List Char → List Char × List Char
  | [] => ([], [])
  | c :: cs =>
    if c.isDigit then
      let p := takeDigitRun cs
      (c :: p.1, p.2)
    else ([], c :: cs)

/-- `datetime.strptime(s, "%Y/%m/%d %H:%M:%S")`: each numeric directive
matches a bounded digit run (1-4 digits for `%Y`, 1-2 for the others,
two-digit hours capped at 23 and minutes/seconds at 59 by the directive
character classes), literal separators must match, format whitespace
matches a nonempty whitespace run, the whole string must be consumed,
and the resulting date must be constructible.  Seconds are validated and
then dropped (no claim observes them). -/
def strptimeYmdHms (cs : List Char) : Option PyDateTime :=
  let yp := takeDigitRun cs
  if yp.1.length < 1 || yp.1.length > 4 then none
  else
    match yp.2 with
    | '/' :: r2 =>
      let mp := takeDigitRun r2
      if !(mp.1.length = 1 || mp.1.length = 2) then none
      else if pyIntL mp.1 < 1 || pyIntL mp.1 > 12 then none
      else
        match mp.2 with
        | '/' :: r4 =>
          let dp := takeDigitRun r4
          if !(dp.1.length = 1 || dp.1.length = 2) then none
          else if pyIntL dp.1 < 1 || pyIntL dp.1 > 31 then none
          else
            match wsPlus dp.2 with
            | none => none
            | some r6 =>
              let hp := takeDigitRun r6
              if !(hp.1.length = 1 || hp.1.length = 2) then none
              else if pyIntL hp.1 > 23 then none
              else
                match hp.2 with
                | ':' :: r8 =>
                  let minp := takeDigitRun r8
                  if !(minp.1.length = 1 || minp.1.length = 2) then none
                  else if pyIntL minp.1 > 59 then none
                  else
                    match minp.2 with
                    | ':' :: r10 =>
                      let sp := takeDigitRun r10
                      if !(sp.1.length = 1 || sp.1.length = 2) then none
                      else if pyIntL sp.1 > 59 then none
                      else if !sp.2.isEmpty then none
                      else if !(dateValidB (pyIntL yp.1) (pyIntL mp.1) (pyIntL dp.1)) then none
                      else
                        some { year := pyIntL yp.1, month := pyIntL mp.1,
                               day := pyIntL dp.1, hour := pyIntL hp.1,
                               minute := pyIntL minp.1 }
                    | _ => none
                | _ => none
        | _ => none
    | _ => none

/-- `_parse_datetime`: missing or empty strings give `None`; otherwise
`strptime` with `ValueError` mapped to `None`. -/
def chulaParseDatetime (ds : Option String) : Option PyDateTime :=
  match ds with
  | none => none
  | some s => if s = "" then none else strptimeYmdHms s.data

/-- `_create_meeting`: the allowed-meeting-type filter, the record
assembly, and the null-start rejection (`if meeting["start"] is None:
return None`).  `location`, `description`, `status` and `id` are not
modelled (no claim mentions them; the last two come from the external
base class). -/
def chulaCreateMeeting (cfg : ChulaConfig) (item : ChulaItem) :
    Option ChulaMeeting :=
  if !cfg.allowedMeetingTypes.isEmpty
      && !(cfg.allowedMeetingTypes.contains (pyStrip (item.MeetingType.getD "")))
      && !(cfg.allowedMeetingTypes.contains (pyStrip (item.MeetingName.getD ""))) then
    none
  else
    let m : ChulaMeeting :=
      { title := chulaParseTitle item,
        classification := chulaParseClassification item,
        start := chulaParseDatetime item.StartDate,
        endTime := chulaParseDatetime item.EndDate,
        links := chulaParseLinks item }
    match m.start with
    | none => none
    | some _ => some m

/-- The body of a calendar response as `parse_calendar` sees it:
`none` models a body that is not valid JSON (on which `response.json()`
raises), `some` a decoded object whose `d` member may be absent. -/
structure ChulaPayload where
  d : Option (List ChulaItem) := none
deriving DecidableEq

/-- `parse_calendar`: `response.json()` raises `JSONDecodeError` on a
malformed body (there is no handler, so the fetch's parse aborts);
a decoded body yields one meeting per item that `_create_meeting`
accepts, with a missing `d` member treated as an empty item list. -/
def chulaParseCalendar (cfg : ChulaConfig) (body : Option ChulaPayload) :
    Except String (List ChulaMeeting) :=
  match body with
  | none => Except.error "json.decoder.JSONDecodeError"
  | some p => Except.ok ((p.d.getD []).filterMap (chulaCreateMeeting cfg))

/-! ## Metaclass configuration checks -/

/-- A Python attribute value in a class body (only its presence matters
to the metaclasses; `pynone` shows that a `None` value still counts as
present). -/
inductive PyVal where
  | pynone
  | pystr (s : String)
  | pyint (n : Int)
deriving DecidableEq

/-- The required-variable scan shared by both metaclass `__init__`
methods: a required name is missing when it is not a key of the class
body dict. -/
def metaMissingVars (required : List String) (dct : List (String × PyVal)) :
    List String :=
  required.filter (fun v => !((dct.map Prod.fst).contains v))

/-- Metaclass `__init__`: raise `NotImplementedError` naming the missing
variables, otherwise construct the class. -/
def metaCheck (required : List String) (dct : List (String × PyVal)) :
    Except String Unit :=
  if (metaMissingVars required dct).isEmpty then Except.ok ()
  else Except.error (String.intercalate ", " (metaMissingVars required dct))

/-- `SandieNationalCityMixinMeta.required_static_vars`. -/
def ncRequiredVars : List String := ["agency", "name", "event_type"]

/-- `ChulaVistaMixinMeta.required_static_vars`. -/
def chulaRequiredVars : List String := ["agency", "name", "meeting_view_id"]

/-! ## Claim-side definitions

These definitions follow the words of spec sentences (not the source);
they exist to be compared with the source embedding above. -/

/-- Claim-side (C6): the fallback pass as the claim words it — "the
first cell with any parseable date, returned as midnight of that
date". -/
def specDateFallback : List (List String) → Option PyDateTime
  | [] => none
  | c :: cs =>
    match ncParseDate (ncCellText c) with
    | some d => some d
    | none => specDateFallback cs

/-- Claim-side (C6): start extraction as the claim words it — the
non-midnight pass, then the parseable-date fallback. -/
def specParseStart (cells : List (List String)) : Option PyDateTime :=
  match ncPassOne cells with
  | some dt => some dt
  | none => specDateFallback cells

/-- Claim-side (C3): the classification cascade as the spec words it,
for "the classification operation of every adapter". -/
def specClassify (title : String) : Classification :=
  let l := pyLower title
  if isSubstrS "commission" l then Classification.commission
  else if isSubstrS "advisory" l then Classification.advisoryCommittee
  else if isSubstrS "committee" l then Classification.committee
  else if isSubstrS "board" l then Classification.board
  else if isSubstrS "council" l then Classification.cityCouncil
  else Classification.notClassified

/-- No-duplicate-href test on a link list. -/
def noDupHrefs : List MLink → Bool
  | [] => true
  | l :: ls => !(ls.any (fun x => x.href = l.href)) && noDupHrefs ls

/-! ## Concrete fixtures used by witnesses and counterexamples -/

/-- The `SandieCityCouncilSpider` configuration from
`spiders/sandie_nationalcity.py`. -/
def fixConfigCouncil : NCConfig :=
  { name := "sandie_citycouncil", agency := "Sandie City Council",
    eventType := NCEventType.str "City Council" }

/-- A list-filter configuration with two event types. -/
def fixConfigBoards : NCConfig :=
  { name := "sandie_boards_commissions", agency := "Sandie Boards and Commissions",
    eventType := NCEventType.list ["Planning Commission", "Traffic Safety Committee"] }

/-- A matching row none of whose cells contains a parseable date. -/
def fixRowNoDate : NCRow :=
  { cells := [["City Council Meeting"], ["TBD"]], anchors := [] }

/-- A matching row with two anchors resolving to the same href. -/
def fixRowDupLinks : NCRow :=
  { cells := [["City Council Meeting"], ["11/20/2024 5:00 PM"]],
    anchors := [{ href := some "/agenda.pdf", texts := ["Agenda"] },
                { href := some "/agenda.pdf", texts := ["Agenda"] }] }

/-- A matching row dated before the default `start_year`. -/
def fixRow2021 : NCRow :=
  { cells := [["City Council Meeting"], ["3/15/2021 5:00 PM"]], anchors := [] }

/-- A combined-meeting row with one document link per event type. -/
def fixRowCombined : NCRow :=
  { cells := [["Planning Commission and Traffic Safety Committee"],
              ["11/20/2024 5:00 PM"]],
    anchors := [{ href := some "/pc_agenda.pdf",
                  texts := ["Planning Commission Agenda"] },
                { href := some "/tsc_agenda.pdf",
                  texts := ["Traffic Safety Committee Agenda"] }] }

/-- Cells whose first entry has a parseable date but a time that
converts out of range (hour 19 + 12 = 31), and whose second entry is a
plain date. -/
def fixCellsBadTime : List (List String) :=
  [["11/20/2024 19:30 PM"], ["12/25/2024"]]

/-- The `ChulaVistaBoardOfEthicsSpider` configuration from
`spiders/sandie_citychula.py`. -/
def fixChulaConfig : ChulaConfig :=
  { name := "chula_vista_board_of_ethics",
    agency := "City of Chula Vista - Board of Ethics", meetingViewId := 15 }

/-- A calendar item with a duplicate document url (second occurrence
under a different title). -/
def fixChulaItem : ChulaItem :=
  { MeetingName := some "Board of Ethics Regular Meeting",
    MeetingType := some "Board",
    StartDate := some "2025/12/17 17:15:00",
    EndDate := some "2025/12/17 18:15:00",
    MeetingDocumentLink := [{ Url := some "Agenda.pdf", Title := some "Agenda (PDF)" },
                            { Url := some "Agenda.pdf", Title := some "Duplicate" }] }

/-- The record `_create_meeting` builds from `fixChulaItem`. -/
def fixChulaMeeting : ChulaMeeting :=
  { title := "Board of Ethics Regular Meeting",
    classification := Classification.board,
    start := some { year := 2025, month := 12, day := 17, hour := 17, minute := 15 },
    endTime := some { year := 2025, month := 12, day := 17, hour := 18, minute := 15 },
    links := [{ href := "https://pub-chulavista.escribemeetings.com/Agenda.pdf",
                title := "Agenda (PDF)" }] }

/-! ## Helper lemmas -/

/-- Bridge between the `contains` test used by the source's `in` checks
and list membership. -/
theorem containsStr_iff (l : List String) (a : String) :
    l.contains a = true ↔ a ∈ l := by
  simp

/-- A datetime returned by the first pass of `_parse_start` has a
non-midnight time-of-day. -/
theorem passOne_some_nonmidnight (cells : List (List String)) (dt : PyDateTime)
    (h : ncPassOne cells = some dt) : dt.hour ≠ 0 ∨ dt.minute ≠ 0 := by
  induction cells with
  | nil => simp [ncPassOne] at h
  | cons c cs ih =>
    cases hx : ncExtractDatetime (ncCellText c) with
    | none =>
      simp only [ncPassOne, hx] at h
      exact ih h
    | some d0 =>
      simp only [ncPassOne, hx] at h
      by_cases hnm : d0.hour ≠ 0 ∨ d0.minute ≠ 0
      · rw [if_pos hnm] at h
        cases h
        exact hnm
      · rw [if_neg hnm] at h
        exact ih h

/-- When the first pass fails, whatever the second pass returns is a
midnight datetime. -/
theorem passTwo_midnight (cells : List (List String))
    (h1 : ncPassOne cells = none) (dt : PyDateTime)
    (h2 : ncPassTwo cells = some dt) : dt.hour = 0 ∧ dt.minute = 0 := by
  induction cells with
  | nil => simp [ncPassTwo] at h2
  | cons c cs ih =>
    cases hx : ncExtractDatetime (ncCellText c) with
    | none =>
      simp only [ncPassOne, hx] at h1
      simp only [ncPassTwo, hx] at h2
      exact ih h1 h2
    | some d0 =>
      simp only [ncPassOne, hx] at h1
      simp only [ncPassTwo, hx] at h2
      cases h2
      by_cases hnm : dt.hour ≠ 0 ∨ dt.minute ≠ 0
      · rw [if_pos hnm] at h1
        exact Option.noConfusion h1
      · push_neg at hnm
        exact hnm

/-- The first pass fails when no cell's extraction succeeds. -/
theorem passOne_none_of_all_none (cells : List (List String))
    (h : ∀ c ∈ cells, ncExtractDatetime (ncCellText c) = none) :
    ncPassOne cells = none := by
  induction cells with
  | nil => rfl
  | cons c cs ih =>
    rw [ncPassOne, h c (by simp)]
    exact ih (fun x hx => h x (by simp [hx]))

/-- The second pass fails when no cell's extraction succeeds. -/
theorem passTwo_none_of_all_none (cells : List (List String))
    (h : ∀ c ∈ cells, ncExtractDatetime (ncCellText c) = none) :
    ncPassTwo cells = none := by
  induction cells with
  | nil => rfl
  | cons c cs ih =>
    rw [ncPassTwo, h c (by simp)]
    exact ih (fun x hx => h x (by simp [hx]))

/-- `_extract_datetime` fails whenever `_parse_date` fails. -/
theorem extract_none_of_parseDate_none (s : String)
    (h : ncParseDate s = none) : ncExtractDatetime s = none := by
  simp [ncExtractDatetime, h]

/-- Appending one link preserves `noDupHrefs` exactly when the new href
is fresh. -/
theorem noDupHrefs_append_one (ls : List MLink) (x : MLink) :
    noDupHrefs (ls ++ [x]) = true ↔
      (noDupHrefs ls = true ∧ ∀ l ∈ ls, l.href ≠ x.href) := by
  induction ls with
  | nil => simp [noDupHrefs]
  | cons a as ih =>
    simp [noDupHrefs, List.any_append, ih, or_imp, forall_and]
    tauto

/-- Urls already seen stay seen through the document-link loop. -/
theorem collectDocLinks_seen_mono (ds : List ChulaDoc) (seen : List String)
    (a : String) (h : a ∈ seen) : a ∈ (collectDocLinks ds seen).2 := by
  induction ds generalizing seen with
  | nil => exact h
  | cons d rest ih =>
    cases habs : chulaMakeAbsoluteUrl d.Url with
    | none =>
      simp only [collectDocLinks, habs]
      exact ih seen h
    | some url =>
      simp only [collectDocLinks, habs]
      by_cases hseen : seen.contains url = true
      · rw [if_pos hseen]
        exact ih seen h
      · rw [if_neg hseen]
        cases ht : chulaNormalizeLinkTitle d.Title with
        | none =>
          simp only [ht]
          exact ih seen h
        | some t =>
          simp only [ht]
          by_cases he : t = ""
          · rw [if_pos he]
            exact ih seen h
          · rw [if_neg he]
            exact ih (seen ++ [url]) (by simp [h])

/-- Invariant of the document-link loop: the collected links have
pairwise distinct hrefs, every collected href is recorded in the final
seen set, and none of them was seen on entry. -/
theorem collectDocLinks_inv (ds : List ChulaDoc) (seen : List String) :
    noDupHrefs (collectDocLinks ds seen).1 = true ∧
      ∀ l ∈ (collectDocLinks ds seen).1,
        l.href ∉ seen ∧ l.href ∈ (collectDocLinks ds seen).2 := by
  induction ds generalizing seen with
  | nil => simp [collectDocLinks, noDupHrefs]
  | cons d rest ih =>
    cases habs : chulaMakeAbsoluteUrl d.Url with
    | none =>
      simp only [collectDocLinks, habs]
      exact ih seen
    | some url =>
      simp only [collectDocLinks, habs]
      by_cases hseen : seen.contains url = true
      · rw [if_pos hseen]
        exact ih seen
      · rw [if_neg hseen]
        cases ht : chulaNormalizeLinkTitle d.Title with
        | none =>
          simp only [ht]
          exact ih seen
        | some t =>
          simp only [ht]
          by_cases he : t = ""
          · rw [if_pos he]
            exact ih seen
          · rw [if_neg he]
            rcases ih (seen ++ [url]) with ⟨hnd, hmem⟩
            have hfresh : ∀ l ∈ (collectDocLinks rest (seen ++ [url])).1,
                l.href ≠ url := by
              intro l hl
              have := (hmem l hl).1
              simp only [List.mem_append, List.mem_singleton] at this
              exact fun heq => this (Or.inr heq)
            constructor
            · simp only [noDupHrefs, Bool.and_eq_true, Bool.not_eq_true',
                List.any_eq_false]
              exact ⟨fun l hl => by simpa using hfresh l hl, hnd⟩
            · intro l hl
              simp only [List.mem_cons] at hl
              rcases hl with rfl | hl
              · refine ⟨by simpa [containsStr_iff] using hseen, ?_⟩
                exact collectDocLinks_seen_mono rest (seen ++ [url]) url (by simp)
              · have := hmem l hl
                refine ⟨fun hc => this.1 (by simp [hc]), this.2⟩

/-- A list produced by `_detect_combined_meeting` is nonempty. -/
theorem detectCombined_some_ne_nil (cfg : NCConfig) (t : String)
    (l : List String) (h : ncDetectCombined cfg t = some l) : l ≠ [] := by
  unfold ncDetectCombined at h
  cases he : cfg.eventType with
  | str s =>
    rw [he] at h
    exact Option.noConfusion h
  | list ets =>
    rw [he] at h
    simp only at h
    split at h
    · split at h
      · cases h
        rename_i hgt
        intro hnil
        rw [hnil] at hgt
        simp at hgt
      · exact Option.noConfusion h
    · exact Option.noConfusion h

/-- The metaclass check succeeds exactly when every required variable is
a key of the class body. -/
theorem metaCheck_ok_iff (req : List String) (dct : List (String × PyVal)) :
    metaCheck req dct = Except.ok () ↔
      ∀ v ∈ req, (dct.map Prod.fst).contains v = true := by
  have h1 : metaCheck req dct = Except.ok () ↔ metaMissingVars req dct = [] := by
    unfold metaCheck
    split
    · rename_i hE
      rw [List.isEmpty_iff] at hE
      simp [hE]
    · rename_i hE
      rw [List.isEmpty_iff] at hE
      simp [hE]
  rw [h1]
  unfold metaMissingVars
  rw [List.filter_eq_nil_iff]
  simp

/-! ## Claim theorems -/

/-- C1 (counterexample): the National City `parse` emits a record with a
null `start` for a matching row none of whose cells contains a parseable
date, so it is not true that every adapter drops an item whose start
resolution fails. -/
theorem claim_C1_counterexample :
    ncRowMeetingData fixConfigCouncil fixRowNoDate "https://src" =
      [{ title := "City Council Meeting",
         classification := Classification.cityCouncil,
         start := none, links := [], source := "https://src" }] := by
  decide

/-- C1 (amended): for the Chula Vista adapter, every record
`_create_meeting` returns has a non-null `start` (items whose start
resolution fails are dropped); the National City adapter instead builds
and yields a record with a null start for such rows. -/
theorem claim_C1_theorem (cfg : ChulaConfig) (item : ChulaItem)
    (m : ChulaMeeting) (h : chulaCreateMeeting cfg item = some m) :
    m.start ≠ none := by
  unfold chulaCreateMeeting at h
  split at h
  · exact Option.noConfusion h
  · simp only at h
    split at h
    · exact Option.noConfusion h
    · rename_i x heq
      cases h
      simp only
      rw [heq]
      simp

/-- C1 (witness): `claim_C1_theorem` applied to a concrete calendar
item with a valid start date. -/
theorem claim_C1_witness :
    chulaCreateMeeting fixChulaConfig fixChulaItem = some fixChulaMeeting ∧
      fixChulaMeeting.start ≠ none :=
  ⟨by decide,
   claim_C1_theorem fixChulaConfig fixChulaItem fixChulaMeeting (by decide)⟩

/-- C2 (counterexample): a National City row with two anchors resolving
to the same href is emitted with duplicate link hrefs, so the
no-duplicate-`href` invariant does not hold for every emitted record. -/
theorem claim_C2_counterexample :
    ncRowMeetingData fixConfigCouncil fixRowDupLinks "https://src" =
      [{ title := "City Council Meeting",
         classification := Classification.cityCouncil,
         start := some { year := 2024, month := 11, day := 20,
                         hour := 17, minute := 0 },
         links := [{ href := "https://www.nationalcityca.gov/agenda.pdf",
                     title := "Agenda" },
                   { href := "https://www.nationalcityca.gov/agenda.pdf",
                     title := "Agenda" }],
         source := "https://src" }] ∧
      noDupHrefs
        [{ href := "https://www.nationalcityca.gov/agenda.pdf",
           title := "Agenda" },
         { href := "https://www.nationalcityca.gov/agenda.pdf",
           title := "Agenda" }] = false := by
  constructor
  · decide
  · decide

/-- C2 (amended): the Chula Vista `_parse_links` output never contains
two entries with equal href, and a repeated resolved href keeps only its
first occurrence (shown on a concrete item); the National City
`_parse_links` performs no deduplication. -/
theorem claim_C2_theorem :
    (∀ item, noDupHrefs (chulaParseLinks item) = true) ∧
      chulaParseLinks fixChulaItem =
        [{ href := "https://pub-chulavista.escribemeetings.com/Agenda.pdf",
           title := "Agenda (PDF)" }] := by
  constructor
  · intro item
    unfold chulaParseLinks
    rcases collectDocLinks_inv item.MeetingDocumentLink [] with ⟨hnd, hmem⟩
    split
    · cases habs : chulaMakeAbsoluteUrl item.VideoUrl with
      | none =>
        simp only [habs]
        exact hnd
      | some vu =>
        simp only [habs]
        by_cases hc :
            ((collectDocLinks item.MeetingDocumentLink []).2.contains vu) = true
        · simp only [hc, Bool.not_true, Bool.false_eq_true, if_false]
          exact hnd
        · simp only [Bool.not_eq_true] at hc
          simp only [hc, Bool.not_false, if_true]
          rw [noDupHrefs_append_one]
          refine ⟨hnd, ?_⟩
          intro l hl heq
          have hin := (hmem l hl).2
          rw [heq] at hin
          rw [(containsStr_iff _ vu).mpr hin] at hc
          exact Bool.noConfusion hc
    · exact hnd
  · decide

/-- C3 (counterexample): the Chula Vista classification, one of the
adapters the claim quantifies over, lacks the advisory and council
keywords: it maps "Parks Advisory Committee" to committee and
"City Council Meeting" to unclassified. -/
theorem claim_C3_counterexample :
    chulaParseClassification
        ({ MeetingType := some "City Council Meeting" } : ChulaItem) =
      Classification.notClassified ∧
    Classification.notClassified ≠ Classification.cityCouncil ∧
    chulaParseClassification
        ({ MeetingType := some "Parks Advisory Committee" } : ChulaItem) =
      Classification.committee ∧
    Classification.committee ≠ Classification.advisoryCommittee := by
  decide

/-- C3 (amended): the National City classification lower-cases the
title and tests commission, advisory, committee, board, council in that
priority order with first match winning and unclassified otherwise
(it coincides with the spec-side cascade on every title, and takes the
four example values); the Chula Vista classification instead tests only
commission, committee, board against the `MeetingType` field. -/
theorem claim_C3_theorem :
    (∀ t, ncClassifyTitle t = specClassify t) ∧
    ncClassifyTitle "Civil Service Commission" = Classification.commission ∧
    ncClassifyTitle "Parks Advisory Committee" =
      Classification.advisoryCommittee ∧
    ncClassifyTitle "City Council Meeting" = Classification.cityCouncil ∧
    ncClassifyTitle "Potluck" = Classification.notClassified ∧
    chulaParseClassification
        ({ MeetingType := some "Parks Advisory Committee" } : ChulaItem) =
      Classification.committee ∧
    chulaParseClassification
        ({ MeetingType := some "City Council Meeting" } : ChulaItem) =
      Classification.notClassified :=
  ⟨fun _ => rfl, by decide, by decide, by decide, by decide, by decide,
   by decide⟩

/-- C4 (counterexample): a malformed JSON body makes `parse_calendar`
raise a JSON decode error rather than yield zero meetings. -/
theorem claim_C4_counterexample :
    chulaParseCalendar fixChulaConfig none =
      Except.error "json.decoder.JSONDecodeError" ∧
    chulaParseCalendar fixChulaConfig none ≠ Except.ok [] :=
  ⟨rfl, by simp [chulaParseCalendar]⟩

/-- C4 (amended): on a malformed JSON body `parse_calendar` propagates
the `JSONDecodeError` of `response.json()` (that fetch's parse aborts);
it yields zero meetings only for a well-formed body, such as one whose
`d` member is absent. -/
theorem claim_C4_theorem (cfg : ChulaConfig) :
    chulaParseCalendar cfg none =
      Except.error "json.decoder.JSONDecodeError" ∧
    chulaParseCalendar cfg (some { d := none }) = Except.ok [] :=
  ⟨rfl, rfl⟩

/-- C5: a row whose title (for a list-configured adapter) contains a
conjunction indicator and at least two configured event types is split
into exactly one record per matched event type, in configuration order,
with title `event_type ++ " Meeting"`, classification recomputed from
that title, the shared start, and links filtered by the event type's
keywords against the original link text. -/
theorem claim_C5_theorem (cfg : NCConfig) (r : NCRow) (src : String)
    (ets : List String) (hET : cfg.eventType = NCEventType.list ets)
    (hcells : r.cells ≠ [])
    (hmatch : ncMatchesEventType cfg (ncRowText r) = true)
    (hskip : ncYearSkip cfg (ncRowStart r) = false)
    (hind : combinedIndicators.any
      (fun i => isSubstrS i (pyLower (ncParseTitle cfg r))) = true)
    (hlen : 1 < (ncMatchedEventTypes ets (ncParseTitle cfg r)).length) :
    ncRowMeetingData cfg r src =
      (ncMatchedEventTypes ets (ncParseTitle cfg r)).map (fun e =>
        { title := e ++ " Meeting",
          classification := ncClassifyTitle (e ++ " Meeting"),
          start := ncRowStart r,
          links := ncFilterLinksByEventType (ncParseLinks r) e,
          source := src }) := by
  have hc : r.cells.isEmpty = false := by
    cases hcc : r.cells with
    | nil => exact absurd hcc hcells
    | cons a l => rfl
  have hdet : ncDetectCombined cfg (ncParseTitle cfg r) =
      some (ncMatchedEventTypes ets (ncParseTitle cfg r)) := by
    unfold ncDetectCombined
    rw [hET]
    simp only [hind, if_true]
    rw [if_pos hlen]
  simp only [ncRowMeetingData, hc, hmatch, hskip, Bool.not_true,
    Bool.false_eq_true, if_false, hdet]

/-- C5 (witness): `claim_C5_theorem` applied to the row
"Planning Commission and Traffic Safety Committee" with both event types
configured: exactly two records, with the split titles and independently
filtered links. -/
theorem claim_C5_witness :
    fixConfigBoards.eventType =
      NCEventType.list ["Planning Commission", "Traffic Safety Committee"] ∧
    fixRowCombined.cells ≠ [] ∧
    ncMatchesEventType fixConfigBoards (ncRowText fixRowCombined) = true ∧
    ncYearSkip fixConfigBoards (ncRowStart fixRowCombined) = false ∧
    combinedIndicators.any
      (fun i =>
        isSubstrS i (pyLower (ncParseTitle fixConfigBoards fixRowCombined))) =
      true ∧
    1 < (ncMatchedEventTypes ["Planning Commission", "Traffic Safety Committee"]
          (ncParseTitle fixConfigBoards fixRowCombined)).length ∧
    ncRowMeetingData fixConfigBoards fixRowCombined "https://src" =
      [{ title := "Planning Commission Meeting",
         classification := Classification.commission,
         start := some { year := 2024, month := 11, day := 20,
                         hour := 17, minute := 0 },
         links := [{ href := "https://www.nationalcityca.gov/pc_agenda.pdf",
                     title := "Agenda" }],
         source := "https://src" },
       { title := "Traffic Safety Committee Meeting",
         classification := Classification.committee,
         start := some { year := 2024, month := 11, day := 20,
                         hour := 17, minute := 0 },
         links := [{ href := "https://www.nationalcityca.gov/tsc_agenda.pdf",
                     title := "Agenda" }],
         source := "https://src" }] := by
  refine ⟨rfl, by decide, by decide, by decide, by decide, by decide, ?_⟩
  have h := claim_C5_theorem fixConfigBoards fixRowCombined "https://src"
    ["Planning Commission", "Traffic Safety Committee"] rfl (by decide)
    (by decide) (by decide) (by decide) (by decide)
  rw [h]
  decide

/-- C6 (counterexample): on a row whose first cell reads
"11/20/2024 19:30 PM" (parseable date, but 19 PM converts to the invalid
hour 31, so its extraction fails) and whose second cell reads
"12/25/2024", the source falls back to the second cell, while the
claim's fallback to "the first cell with any parseable date" would give
midnight of November 20. -/
theorem claim_C6_counterexample :
    ncParseStart fixCellsBadTime ≠ specParseStart fixCellsBadTime ∧
    ncParseStart fixCellsBadTime =
      some { year := 2024, month := 12, day := 25 } ∧
    specParseStart fixCellsBadTime =
      some { year := 2024, month := 11, day := 20 } ∧
    ncParseDate (ncCellText ["11/20/2024 19:30 PM"]) =
      some { year := 2024, month := 11, day := 20 } := by
  refine ⟨by decide, by decide, by decide, by decide⟩

/-- C6 (amended): start extraction first scans all cells for a datetime
whose time-of-day is not midnight and returns the first such datetime;
only when no cell yields one does it fall back to the first cell whose
datetime extraction succeeds, which is then a midnight datetime (a cell
whose date parses but whose matched time is out of range yields no
extraction and is skipped by both passes); it returns none when no
cell's extraction succeeds, in particular when no cell contains a
parseable date. -/
theorem claim_C6_theorem (cells : List (List String)) :
    (∀ dt, ncPassOne cells = some dt →
        ncParseStart cells = some dt ∧ (dt.hour ≠ 0 ∨ dt.minute ≠ 0)) ∧
    (ncPassOne cells = none → ncParseStart cells = ncPassTwo cells) ∧
    (ncPassOne cells = none → ∀ dt, ncPassTwo cells = some dt →
        dt.hour = 0 ∧ dt.minute = 0) ∧
    ((∀ c ∈ cells, ncExtractDatetime (ncCellText c) = none) →
        ncParseStart cells = none) ∧
    ((∀ c ∈ cells, ncParseDate (ncCellText c) = none) →
        ncParseStart cells = none) := by
  refine ⟨?_, ?_, passTwo_midnight cells, ?_, ?_⟩
  · intro dt h
    exact ⟨by simp only [ncParseStart, h], passOne_some_nonmidnight cells dt h⟩
  · intro h
    simp only [ncParseStart, h]
  · intro h
    simp only [ncParseStart, passOne_none_of_all_none cells h]
    exact passTwo_none_of_all_none cells h
  · intro h
    have h2 : ∀ c ∈ cells, ncExtractDatetime (ncCellText c) = none :=
      fun c hc => extract_none_of_parseDate_none _ (h c hc)
    simp only [ncParseStart, passOne_none_of_all_none cells h2]
    exact passTwo_none_of_all_none cells h2

/-- C6 (witness): `claim_C6_theorem` applied to a one-cell date-only
row: the first pass fails, the fallback returns midnight of the date. -/
theorem claim_C6_witness :
    ncPassOne [["11/20/2024"]] = none ∧
    ncPassTwo [["11/20/2024"]] =
      some { year := 2024, month := 11, day := 20 } ∧
    ncParseStart [["11/20/2024"]] = ncPassTwo [["11/20/2024"]] ∧
    (({ year := 2024, month := 11, day := 20 } : PyDateTime).hour = 0 ∧
      ({ year := 2024, month := 11, day := 20 } : PyDateTime).minute = 0) :=
  by
  have t := claim_C6_theorem [["11/20/2024"]]
  exact ⟨by decide, by decide, t.2.1 (by decide),
    t.2.2.1 (by decide) { year := 2024, month := 11, day := 20 } (by decide)⟩

/-- C7: the date cascade — the three example strings all parse to
November 20 2024; when no pattern matches the result is none; a match
of the first pattern with a valid date (its first group is 1-2 digits
wide, hence month/day/year) wins immediately; and when the first
pattern fails, a match of the second pattern whose 4-digit first group
is the year wins next. -/
theorem claim_C7_theorem :
    ncParseDate "11/20/2024" = some { year := 2024, month := 11, day := 20 } ∧
    ncParseDate "2024-11-20" = some { year := 2024, month := 11, day := 20 } ∧
    ncParseDate "November 20, 2024" =
      some { year := 2024, month := 11, day := 20 } ∧
    (∀ cs, ncSearchD1 cs = none → ncSearchD2 cs = none →
        ncSearchD3 cs = none → ncSearchD4 cs = none →
        ncParseDateL cs = none) ∧
    (∀ cs g1 g2 g3, ncSearchD1 cs = some (g1, g2, g3) →
        pyIsDigitStr g1 = true → pyIsDigitStr g2 = true → g1.length ≠ 4 →
        dateValidB (pyIntL g3) (pyIntL g1) (pyIntL g2) = true →
        ncParseDateL cs =
          some { year := pyIntL g3, month := pyIntL g1, day := pyIntL g2 }) ∧
    (∀ cs g1 g2 g3, ncSearchD1 cs = none →
        ncSearchD2 cs = some (g1, g2, g3) →
        pyIsDigitStr g1 = true → pyIsDigitStr g2 = true → g1.length = 4 →
        dateValidB (pyIntL g1) (pyIntL g2) (pyIntL g3) = true →
        ncParseDateL cs =
          some { year := pyIntL g1, month := pyIntL g2, day := pyIntL g3 }) := by
  refine ⟨by decide, by decide, by decide, ?_, ?_, ?_⟩
  · intro cs h1 h2 h3 h4
    simp [ncParseDateL, h1, h2, h3, h4]
  · intro cs g1 g2 g3 h hd1 hd2 hlen hval
    simp only [ncParseDateL, h, Option.some_bind, interpG, hd1, hd2,
      Bool.and_self, if_true, mkValidDate, hval]
    rw [if_neg hlen]
  · intro cs g1 g2 g3 h0 h hd1 hd2 hlen hval
    simp only [ncParseDateL, h0, Option.none_bind, h, Option.some_bind,
      interpG, hd1, hd2, Bool.and_self, if_true, hlen, mkValidDate, hval]

/-- C7 (witness): the first-match and width-disambiguation clauses of
`claim_C7_theorem` applied to "11/20/2024" and "2024-11-20". -/
theorem claim_C7_witness :
    ncSearchD1 ("11/20/2024".data) =
      some ("11".data, "20".data, "2024".data) ∧
    ncSearchD1 ("2024-11-20".data) = none ∧
    ncSearchD2 ("2024-11-20".data) =
      some ("2024".data, "11".data, "20".data) ∧
    ncParseDateL ("11/20/2024".data) =
      some { year := 2024, month := 11, day := 20 } ∧
    ncParseDateL ("2024-11-20".data) =
      some { year := 2024, month := 11, day := 20 } :=
  by
  have t := claim_C7_theorem
  have h1 := t.2.2.2.2.1 ("11/20/2024".data) "11".data "20".data "2024".data
    (by decide) (by decide) (by decide) (by decide) (by decide)
  have h2 := t.2.2.2.2.2 ("2024-11-20".data) "2024".data "11".data "20".data
    (by decide) (by decide) (by decide) (by decide) (by decide) (by decide)
  exact ⟨by decide, by decide, by decide, h1.trans (by decide),
    h2.trans (by decide)⟩

/-- C8: the time conversion — the three example strings convert as
claimed; `PM` adds 12 to any hour other than 12, `12 PM` stays 12,
`12 AM` becomes 0, any other `AM` hour is unchanged; the `H:MM AM/PM`
pattern is tried first and the bare-hour pattern (with minute 0) only
when it fails; no match gives none. -/
theorem claim_C8_theorem :
    ncExtractTime "5:00 PM" = some (17, 0) ∧
    ncExtractTime "12:00 AM" = some (0, 0) ∧
    ncExtractTime "12:00 PM" = some (12, 0) ∧
    (∀ h, h ≠ 12 → convert12 Meridiem.pm h = h + 12) ∧
    convert12 Meridiem.pm 12 = 12 ∧
    convert12 Meridiem.am 12 = 0 ∧
    (∀ h, h ≠ 12 → convert12 Meridiem.am h = h) ∧
    (∀ s h m p, ncSearchTimeHM s.data = some (h, m, p) →
        ncExtractTime s = some (convert12 p (pyIntL h), pyIntL m)) ∧
    (∀ s h p, ncSearchTimeHM s.data = none →
        ncSearchTimeH s.data = some (h, p) →
        ncExtractTime s = some (convert12 p (pyIntL h), 0)) ∧
    (∀ s, ncSearchTimeHM s.data = none → ncSearchTimeH s.data = none →
        ncExtractTime s = none) := by
  refine ⟨by decide, by decide, by decide, ?_, by decide, by decide, ?_,
    ?_, ?_, ?_⟩
  · intro h hne
    simp [convert12, hne]
  · intro h hne
    simp [convert12, hne]
  · intro s h m p hs
    simp [ncExtractTime, hs]
  · intro s h p hs1 hs2
    simp [ncExtractTime, hs1, hs2]
  · intro s hs1 hs2
    simp [ncExtractTime, hs1, hs2]

/-- C8 (witness): the conversion and pattern-order clauses of
`claim_C8_theorem` applied to concrete hours and to "7:30 pm". -/
theorem claim_C8_witness :
    (5 : Nat) ≠ 12 ∧ convert12 Meridiem.pm 5 = 17 ∧
    (3 : Nat) ≠ 12 ∧ convert12 Meridiem.am 3 = 3 ∧
    ncSearchTimeHM ("7:30 pm".data) =
      some ("7".data, "30".data, Meridiem.pm) ∧
    ncExtractTime "7:30 pm" = some (19, 30) :=
  by
  have t := claim_C8_theorem
  have h1 := t.2.2.2.1 5 (by decide)
  have h2 := t.2.2.2.2.2.2.1 3 (by decide)
  have h3 := t.2.2.2.2.2.2.2.1 "7:30 pm" "7".data "30".data Meridiem.pm
    (by decide)
  exact ⟨by decide, h1.trans (by norm_num), by decide, h2, by decide,
    h3.trans (by decide)⟩

/-- C9: metaclass construction succeeds exactly when every required
static variable (agency, name, event_type for National City; agency,
name, meeting_view_id for Chula Vista) is a key of the class body, and
a class body binding them all to `None` still constructs. -/
theorem claim_C9_theorem :
    (∀ dct : List (String × PyVal),
      (metaCheck ncRequiredVars dct = Except.ok () ↔
        ((dct.map Prod.fst).contains "agency" = true ∧
         (dct.map Prod.fst).contains "name" = true ∧
         (dct.map Prod.fst).contains "event_type" = true)) ∧
      (metaCheck chulaRequiredVars dct = Except.ok () ↔
        ((dct.map Prod.fst).contains "agency" = true ∧
         (dct.map Prod.fst).contains "name" = true ∧
         (dct.map Prod.fst).contains "meeting_view_id" = true))) ∧
    metaCheck ncRequiredVars
      [("agency", PyVal.pynone), ("name", PyVal.pynone),
       ("event_type", PyVal.pynone)] = Except.ok () ∧
    metaCheck chulaRequiredVars
      [("agency", PyVal.pynone), ("name", PyVal.pynone),
       ("meeting_view_id", PyVal.pynone)] = Except.ok () := by
  refine ⟨?_, (metaCheck_ok_iff _ _).mpr (by decide),
    (metaCheck_ok_iff _ _).mpr (by decide)⟩
  intro dct
  constructor
  · rw [metaCheck_ok_iff]
    simp [ncRequiredVars]
  · rw [metaCheck_ok_iff]
    simp [chulaRequiredVars]

/-- C10: a row whose extracted start is before the configured
`start_year` emits nothing; the cutoff does not apply to rows whose
start extraction fails (they still emit at least one record when they
match the filter); and `start_year` defaults to 2022. -/
theorem claim_C10_theorem :
    (∀ (cfg : NCConfig) (r : NCRow) (src : String) (dt : PyDateTime),
        ncRowStart r = some dt → dt.year < cfg.startYear →
        ncRowMeetingData cfg r src = []) ∧
    (∀ (cfg : NCConfig) (r : NCRow) (src : String),
        r.cells ≠ [] → ncMatchesEventType cfg (ncRowText r) = true →
        ncRowStart r = none → ncRowMeetingData cfg r src ≠ []) ∧
    ({ name := "n", agency := "a",
       eventType := NCEventType.str "e" } : NCConfig).startYear = 2022 := by
  refine ⟨?_, ?_, rfl⟩
  · intro cfg r src dt h1 h2
    simp [ncRowMeetingData, ncYearSkip, h1, h2]
  · intro cfg r src h1 h2 h3
    have hc : r.cells.isEmpty = false := by
      cases hcc : r.cells with
      | nil => exact absurd hcc h1
      | cons a l => rfl
    simp only [ncRowMeetingData, hc, h2, h3, Bool.not_true, Bool.false_eq_true,
      if_false, ncYearSkip]
    cases hdet : ncDetectCombined cfg (ncParseTitle cfg r) with
    | some types =>
      simp only [hdet]
      have hne := detectCombined_some_ne_nil cfg (ncParseTitle cfg r) types hdet
      simpa using hne
    | none => simp [hdet]

/-- C10 (witness): both clauses of `claim_C10_theorem` applied to a
2021-dated row (skipped) and to a row with no parseable date (still
emitted). -/
theorem claim_C10_witness :
    ncRowStart fixRow2021 =
      some { year := 2021, month := 3, day := 15, hour := 17, minute := 0 } ∧
    2021 < fixConfigCouncil.startYear ∧
    ncRowMeetingData fixConfigCouncil fixRow2021 "https://src" = [] ∧
    fixRowNoDate.cells ≠ [] ∧
    ncMatchesEventType fixConfigCouncil (ncRowText fixRowNoDate) = true ∧
    ncRowStart fixRowNoDate = none ∧
    ncRowMeetingData fixConfigCouncil fixRowNoDate "https://src" ≠ [] :=
  ⟨by decide, by decide,
   claim_C10_theorem.1 fixConfigCouncil fixRow2021 "https://src"
     { year := 2021, month := 3, day := 15, hour := 17, minute := 0 }
     (by decide) (by decide),
   by decide, by decide, by decide,
   claim_C10_theorem.2.1 fixConfigCouncil fixRowNoDate "https://src"
     (by decide) (by decide) (by decide)⟩

end Scrapers
